import Mathlib

/-!
Verification development for the Feedbot repository (`src/app.py`),
a rubric-driven feedback generator built on Streamlit and an
OpenAI-style chat-completion model.

The source is shallowly embedded: the parsed model output
(`json.loads` result) is a `JValue`; the sidebar weight loop, the
`build_prompt` function and the "Get Feedback" handler body (its four
asserts, interleaved Streamlit rendering, the audit-log record and the
catch-all `except`) are Lean functions over explicit data.
-/

/-- A parsed JSON value, the result of `json.loads` on the model's raw
output.  `jfloat` carries a rational standing for a JSON non-integer
number; no theorem below depends on float arithmetic or formatting. -/
inductive JValue where
  | jstr (s : String)
  | jint (n : Int)
  | jfloat (q : Rat)
  | jbool (b : Bool)
  | jnull
  | jarr (xs : List JValue)
  | jobj (fields : List (String × JValue))
deriving Repr

mutual

/-- Python `repr` of a JSON value (used by `str()` on non-string
containers inside f-strings). Container punctuation follows Python dict
and list reprs. -/
def pyRepr : JValue → String
  | .jstr s => "\x27" ++ s ++ "\x27"
  | .jint n => toString n
  | .jfloat q => toString q
  | .jbool b => if b then "True" else "False"
  | .jnull => "None"
  | .jarr xs => "[" ++ pyReprItems xs ++ "]"
  | .jobj fs => "\x7b" ++ pyReprFields fs ++ "\x7d"

def pyReprItems : List JValue → String
  | [] => ""
  | [x] => pyRepr x
  | x :: y :: rest => pyRepr x ++ ", " ++ pyReprItems (y :: rest)

def pyReprFields : List (String × JValue) → String
  | [] => ""
  | [(k, v)] => "\x27" ++ k ++ "\x27: " ++ pyRepr v
  | (k, v) :: q :: rest =>
      "\x27" ++ k ++ "\x27: " ++ pyRepr v ++ ", " ++ pyReprFields (q :: rest)

end

/-- Python `str()` as used in an f-string slot: a string renders as
itself, anything else as its `repr`. -/
def pyStr : JValue → String
  | .jstr s => s
  | v => pyRepr v

/-- Python `==` between a JSON value and a Python string: true exactly
when the value is that string (cross-type `==` is `False`). -/
def pyEqStr (v : JValue) (s : String) : Bool :=
  match v with
  | .jstr t => t == s
  | _ => false

/-- Python dict lookup `d[k]` on a parsed JSON object: `none` models the
`KeyError`/`TypeError` raised when the key is absent or the value is not
a dict. -/
def jGet : JValue → String → Option JValue
  | .jobj fs, k => (fs.find? (fun p => p.1 == k)).map Prod.snd
  | _, _ => none

/-- `isinstance(v, list)`. -/
def isList : JValue → Bool
  | .jarr _ => true
  | _ => false

/-- `isinstance(v, (int, float))`.  Python booleans are a subclass of
`int`, so they pass this check too. -/
def isNum : JValue → Bool
  | .jint _ => true
  | .jfloat _ => true
  | .jbool _ => true
  | _ => false

/-- Python `int(v)` on a value that passed `isNum`: identity on ints,
truncation toward zero on floats, 1/0 on booleans; 0 on the unreachable
non-numeric cases. -/
def pyInt : JValue → Int
  | .jint n => n
  | .jfloat q => Int.tdiv q.num q.den
  | .jbool b => if b then 1 else 0
  | _ => 0

/-- One rubric criterion as stored in `config.yaml`:
`{id, name, weight, desc}`. -/
structure Criterion where
  id : String
  name : String
  desc : String
  weight : Int
deriving Repr, DecidableEq

/-- A task rubric: display label and ordered criteria. -/
structure Rubric where
  label : String
  criteria : List Criterion
deriving Repr, DecidableEq

/-- Per-task calibration exemplars; any band may be absent
(`CFG["exemplars"].get(task_key, {})`). -/
structure Exemplars where
  high : Option String := none
  mid : Option String := none
  low : Option String := none
deriving Repr, DecidableEq

/-- The loaded `config.yaml` content the app reads: `rubrics` and
`exemplars` keyed by task id (insertion-ordered dicts as assoc lists). -/
structure Config where
  rubrics : List (String × Rubric)
  exemplars : List (String × Exemplars)
deriving Repr

/-- Python dict lookup on an assoc list (first match; dict keys are
unique so first match is the binding). -/
def pyLookup {α : Type} (d : List (String × α)) (k : String) : Option α :=
  (d.find? (fun p => p.1 == k)).map Prod.snd

/-- A Python default-whitespace character (`str.strip`,
`textwrap.dedent`). -/
def pyIsSpace (c : Char) : Bool :=
  c = ' ' ∨ c = '\t' ∨ c = '\n' ∨ c = '\r' ∨ c = '\x0b' ∨ c = '\x0c'

/-- Python `s.strip()`: remove leading and trailing whitespace. -/
def pyStrip (s : String) : String :=
  String.mk (((s.data.dropWhile pyIsSpace).reverse.dropWhile pyIsSpace).reverse)

/-- The student-submission slot of the user payload:
`submission.strip() if submission else "(empty)"` (app.py line 76).
Note the truthiness test is on the raw string, not the stripped one. -/
def submissionSlot (submission : String) : String :=
  if submission = "" then "(empty)" else pyStrip submission

/-- Split a character list on a separator (helper modelling
`str.split("\n")`): always returns at least one (possibly empty)
segment. -/
def splitOnChar (sep : Char) : List Char → List (List Char)
  | [] => [[]]
  | c :: cs =>
    match splitOnChar sep cs with
    | [] => if c = sep then [[], []] else [[c]]
    | l :: ls => if c = sep then [] :: l :: ls else (c :: l) :: ls

/-- Longest common prefix of two character lists (helper for
`pyDedent`). -/
def commonPfxL : List Char → List Char → List Char
  | x :: xs, y :: ys => if x = y then x :: commonPfxL xs ys else []
  | _, _ => []

/-- List-prefix test (helper for `pyDedent`). -/
def isPfxList : List Char → List Char → Bool
  | [], _ => true
  | _ :: _, [] => false
  | x :: xs, y :: ys => x = y && isPfxList xs ys

/-- Models `textwrap.dedent`: compute the longest whitespace margin
common to all non-blank lines and strip it from the front of every line
it starts.  (Only applied to the exemplar block; no theorem below
depends on its fine detail.) -/
def pyDedent (t : String) : String :=
  let lines := splitOnChar '\n' t.data
  let margins := (lines.filter (fun l => l.dropWhile pyIsSpace ≠ [])).map
    (fun l => l.takeWhile (fun ch => ch = ' ' ∨ ch = '\t'))
  let margin := match margins with
    | [] => ([] : List Char)
    | m :: ms => ms.foldl commonPfxL m
  String.mk (List.intercalate ['\n']
    (lines.map (fun l => if isPfxList margin l then l.drop margin.length else l)))

/-- The compressed few-shot exemplar lines (app.py lines 54–57): for
each band in `["high", "mid", "low"]` present with non-blank text, the
block `f"{band.upper()} exemplar:\n{ex[band].strip()}\n"`. -/
def exampleBlocks (ex : Exemplars) : List String :=
  (match ex.high with
    | some s => if pyStrip s ≠ "" then ["HIGH exemplar:\n" ++ pyStrip s ++ "\n"] else []
    | none => []) ++
  (match ex.mid with
    | some s => if pyStrip s ≠ "" then ["MID exemplar:\n" ++ pyStrip s ++ "\n"] else []
    | none => []) ++
  (match ex.low with
    | some s => if pyStrip s ≠ "" then ["LOW exemplar:\n" ++ pyStrip s ++ "\n"] else []
    | none => [])

/-- The fixed system prompt of `build_prompt` (app.py lines 59–66). -/
def systemPrompt : String :=
  "You are a teacher\x27s assistant for Stage 4 Technology (Mandatory) in NSW.\n" ++
  "You produce fair, explainable feedback aligned to the teacher-provided rubric.\n" ++
  "Return a strict JSON object with keys: overall_comment, criteria (list of " ++
  "\x7bid, score, out_of, feedback\x7d), next_steps (list), total_score.\n" ++
  "- Scores must be non-negative integers.\n" ++
  "- Sum of criterion scores scales to /20 based on provided weights.\n" ++
  "- Write feedback to the student, not to the teacher.\n" ++
  "- No personal data. No grades beyond /20.\n" ++
  "- Be supportive, specific, and actionable. Avoid generic praise."

/-- The literal output-schema block embedded in the user payload
(app.py lines 82–90; the doubled braces of the f-string are literal). -/
def schemaBlock : String :=
  "\x7b\n" ++
  "  \"overall_comment\": \"string\",\n" ++
  "  \"criteria\": [\n" ++
  "    \x7b\"id\": \"planning\", \"score\": 4, \"out_of\": 5, \"feedback\": \"string\"\x7d,\n" ++
  "    ...\n" ++
  "  ],\n" ++
  "  \"next_steps\": [\"string\", \"string\"],\n" ++
  "  \"total_score\": 17\n" ++
  "\x7d\n"

/-- The criteria bullet list (app.py lines 48–51): one
`- name (weights[id]): desc` line per rubric criterion, in rubric
order; `none` models the `KeyError` when a criterion id is missing from
the weights dict. -/
def bulletLines : List Criterion → List (String × Int) → Option (List String)
  | [], _ => some []
  | c :: cs, w =>
    match pyLookup w c.id with
    | none => none
    | some wt =>
      match bulletLines cs w with
      | none => none
      | some ls =>
        some (("- " ++ c.name ++ " (" ++ toString wt ++ "): " ++ c.desc) :: ls)

/-- `criteria_bullets` (app.py lines 48–51): the bullet lines joined
with newlines. -/
def criteriaBullets (criteria : List Criterion) (weights : List (String × Int)) :
    Option String :=
  (bulletLines criteria weights).map (String.intercalate "\n")

/-- `build_prompt(task_key, submission, weights)` (app.py lines 45–95),
with the module-level globals it reads (`CFG`, `year_group`, `tone`)
passed explicitly.  Returns the `[{"role": "system", ...},
{"role": "user", ...}]` message list as role/content pairs; `none`
models a `KeyError` (unknown task key, or a rubric criterion id missing
from `weights`). -/
def build_prompt (cfg : Config) (yearGroup tone : String)
    (taskKey submission : String) (weights : List (String × Int)) :
    Option (List (String × String)) :=
  match pyLookup cfg.rubrics taskKey with
  | none => none
  | some rub =>
    let ex := (pyLookup cfg.exemplars taskKey).getD {}
    match criteriaBullets rub.criteria weights with
    | none => none
    | some bullets =>
      let user :=
        "\nTASK: " ++ rub.label ++
        "\nYEAR GROUP: " ++ yearGroup ++
        "\nTONE: " ++ tone ++
        "\nWEIGHTS (sum " ++ toString (weights.map Prod.snd).sum ++ ", scale to /20):\n" ++
        bullets ++
        "\n\nSTUDENT SUBMISSION:\n" ++ submissionSlot submission ++
        "\n\nEXAMPLES (for calibration; do not copy):\n" ++
        pyDedent (String.intercalate "\n" (exampleBlocks ex)) ++
        "\n\nOUTPUT JSON SCHEMA:\n" ++ schemaBlock ++ "\n"
      some [("system", systemPrompt), ("user", user)]

/-- Models streamlit's `st.number_input(min_value, max_value, value)`
widget contract: an out-of-range default `value` raises
(`StreamlitAPIException`, modelled as `none`); otherwise the widget
yields the user's entry when one is made (the UI cannot produce an
out-of-range entry, modelled as `none`) and `value` when none is. -/
def numberInput (minV maxV value : Int) (entry : Option Int) : Option Int :=
  if value < minV ∨ maxV < value then none
  else match entry with
    | none => some value
    | some v => if v < minV ∨ maxV < v then none else some v

/-- The sidebar weight loop (app.py lines 25–31): for each rubric
criterion, a `number_input` bounded to [0, 20] defaulting to the
criterion's configured weight; collects the `weights` dict (in rubric
criterion order) and the running `total_w`.  `entry` gives the user's
override for a criterion id, if any. -/
def sidebarWeights : List Criterion → (String → Option Int) →
    Option (List (String × Int) × Int)
  | [], _ => some ([], 0)
  | c :: rest, entry =>
    match numberInput 0 20 c.weight (entry c.id) with
    | none => none
    | some w =>
      match sidebarWeights rest entry with
      | none => none
      | some (ws, t) => some ((c.id, w) :: ws, w + t)

/-- The four `assert` statements guarding the handler (app.py lines
117–120): key presence plus `isinstance` checks on `criteria`,
`total_score`, `overall_comment`, `next_steps`.  `jGet` returning
`none` covers both a missing key and a non-dict toplevel value (where
the Python `in`/indexing raises before anything is rendered). -/
def topAsserts (data : JValue) : Bool :=
  (match jGet data "criteria" with | some v => isList v | none => false) &&
  (match jGet data "total_score" with | some v => isNum v | none => false) &&
  (jGet data "overall_comment").isSome &&
  (match jGet data "next_steps" with | some v => isList v | none => false)

/-- The single catch-all error message of the handler (app.py line 151):
`f"Something went wrong parsing the model output. {e}"`, applied to
every exception alike. -/
def genericError (excText : String) : String :=
  "Something went wrong parsing the model output. " ++ excText

/-- The display name chosen for a response criterion (app.py line 129):
the first rubric criterion whose id `==` the response's `id`, else the
response's `id` itself; and the f-string then applies `str()`. -/
def findName (rubric : Rubric) (cid : JValue) : String :=
  match rubric.criteria.find? (fun r => pyEqStr cid r.id) with
  | some r => r.name
  | none => pyStr cid

/-- The audit-log record (app.py lines 138–145): timestamp, task key,
year group, resolved weights, `len(submission)` and the parsed model
output verbatim. -/
structure LogRecord where
  timestamp : String
  task : String
  year_group : String
  weights : List (String × Int)
  submission_len : Nat
  result : JValue
deriving Repr

/-- Builds the audit-log dict of app.py lines 138–145. -/
def makeLog (ts taskKey yearGroup : String) (weights : List (String × Int))
    (submission : String) (data : JValue) : LogRecord :=
  { timestamp := ts, task := taskKey, year_group := yearGroup,
    weights := weights, submission_len := submission.length, result := data }

/-- Observable outcome of one press of "Get Feedback": the Streamlit
output emitted (in order) before success or failure, the `st.error`
message if the `except` branch ran, and the audit-log record if one was
written. -/
structure RunResult where
  rendered : List String
  errMsg : Option String
  logged : Option LogRecord
deriving Repr

/-- The criteria rendering loop (app.py lines 127–131).  For each
element: evaluate `c["id"]` (the eagerly-evaluated `next` default —
`KeyError`/`TypeError` aborts with nothing further shown), resolve the
display name, render `f"**{name}** — {c['score']}/{c['out_of']}"`
(score/out_of lookups abort before the line is shown), then render
`c["feedback"]`.  `.error` carries the output already emitted plus the
exception text reaching the `except` branch. -/
def renderCriteria (rubric : Rubric) :
    List JValue → List String → Except (List String × String) (List String)
  | [], acc => .ok acc
  | c :: rest, acc =>
    match jGet c "id" with
    | none => .error (acc, "\x27id\x27")
    | some cid =>
      match jGet c "score" with
      | none => .error (acc, "\x27score\x27")
      | some sc =>
        match jGet c "out_of" with
        | none => .error (acc, "\x27out_of\x27")
        | some oo =>
          let line := "**" ++ findName rubric cid ++ "** — " ++
            pyStr sc ++ "/" ++ pyStr oo
          match jGet c "feedback" with
          | none => .error (acc ++ [line], "\x27feedback\x27")
          | some fb => renderCriteria rubric rest (acc ++ [line, pyStr fb])

/-- The `criteria` list of a response that passed `topAsserts`. -/
def criteriaOf (data : JValue) : List JValue :=
  match jGet data "criteria" with
  | some (.jarr xs) => xs
  | _ => []

/-- The `next_steps` list of a response that passed `topAsserts`. -/
def nextStepsOf (data : JValue) : List JValue :=
  match jGet data "next_steps" with
  | some (.jarr xs) => xs
  | _ => []

/-- The handler body on a successfully parsed model output (app.py
lines 116–148): the four asserts, then the interleaved rendering of
total score, overall comment, criteria and next steps, then the audit
log; any exception jumps to the `except` branch with everything already
rendered left visible. -/
def handlerWithData (rubric : Rubric) (taskKey yearGroup ts : String)
    (weights : List (String × Int)) (submission : String) (data : JValue) :
    RunResult :=
  if topAsserts data then
    let out0 := ["Total Score: " ++ toString (pyInt ((jGet data "total_score").getD .jnull)) ++ "/20",
                 "### Overall Comment",
                 pyStr ((jGet data "overall_comment").getD .jnull),
                 "### Criteria Feedback"]
    match renderCriteria rubric (criteriaOf data) out0 with
    | .error (acc, e) => ⟨acc, some (genericError e), none⟩
    | .ok acc =>
      let steps := (nextStepsOf data).enumFrom 1
      let acc2 := acc ++ ["### Next Steps"] ++
        steps.map (fun p => toString p.1 ++ ". " ++ pyStr p.2)
      ⟨acc2, none, some (makeLog ts taskKey yearGroup weights submission data)⟩
  else ⟨[], some (genericError "assert failed"), none⟩

/-- One full press of "Get Feedback" (app.py lines 111–151) given the
parse outcome of the model's raw output: `none` models
`json.loads` raising `JSONDecodeError` inside `call_model` (app.py line
106), which reaches the same catch-all `except`. -/
def handler (rubric : Rubric) (taskKey yearGroup ts : String)
    (weights : List (String × Int)) (submission : String)
    (parsed : Option JValue) : RunResult :=
  match parsed with
  | none => ⟨[], some (genericError "Expecting value: line 1 column 1 (char 0)"), none⟩
  | some data => handlerWithData rubric taskKey yearGroup ts weights submission data

/-- A concrete rubric matching the end-to-end scenario of the spec:
criteria planning/execution/reflection with default weights 5/10/5. -/
def demoRubric : Rubric :=
  { label := "Design Portfolio",
    criteria :=
      [ { id := "planning", name := "Planning",
          desc := "Quality of the design plan", weight := 5 },
        { id := "execution", name := "Execution",
          desc := "Quality of the build", weight := 10 },
        { id := "reflection", name := "Reflection",
          desc := "Depth of evaluation", weight := 5 } ] }

/-- The resolved weights dict the sidebar produces for `demoRubric`
with no overrides. -/
def demoWeights : List (String × Int) :=
  [("planning", 5), ("execution", 10), ("reflection", 5)]

/-- A concrete configuration holding `demoRubric` under task key
`"design_portfolio"`, with no exemplars. -/
def demoCfg : Config :=
  { rubrics := [("design_portfolio", demoRubric)], exemplars := [] }

/-- A criteria element that is an object carrying the four keys the
rendering loop reads. -/
def hasCritKeys (c : JValue) : Bool :=
  (jGet c "id").isSome && (jGet c "score").isSome &&
  (jGet c "out_of").isSome && (jGet c "feedback").isSome

/-- A response whose only criterion is scored 6 out of 5 but which is
otherwise well-formed. -/
def dataC1 : JValue :=
  .jobj [("overall_comment", .jstr "Solid"),
         ("criteria", .jarr
           [.jobj [("id", .jstr "planning"), ("score", .jint 6),
                   ("out_of", .jint 5), ("feedback", .jstr "Over the top")]]),
         ("next_steps", .jarr [.jstr "Step"]),
         ("total_score", .jint 6)]

/-- A response whose only criterion carries an id absent from the
active rubric, but which is otherwise well-formed. -/
def dataC2 : JValue :=
  .jobj [("overall_comment", .jstr "Hmm"),
         ("criteria", .jarr
           [.jobj [("id", .jstr "unlisted"), ("score", .jint 3),
                   ("out_of", .jint 5), ("feedback", .jstr "Mystery")]]),
         ("next_steps", .jarr [.jstr "S1"]),
         ("total_score", .jint 10)]

/-- A response with empty criteria and next_steps whose total_score is
the given integer. -/
def dataWithTotal (n : Int) : JValue :=
  .jobj [("overall_comment", .jstr "ok"), ("criteria", .jarr []),
         ("next_steps", .jarr []), ("total_score", .jint n)]

/-- A response that passes the four top-level asserts but whose single
criteria element is a bare string, so `c["id"]` raises mid-rendering. -/
def dataC5 : JValue :=
  .jobj [("overall_comment", .jstr "Nice effort"),
         ("criteria", .jarr [.jstr "broken"]),
         ("next_steps", .jarr []),
         ("total_score", .jint 12)]

/-- The synthetic well-formed response of the spec's round-trip
property: `total_score = 17`, three in-range criteria, three next
steps. -/
def dataC6 : JValue :=
  .jobj [("overall_comment", .jstr "Good start"),
         ("criteria", .jarr
           [.jobj [("id", .jstr "planning"), ("score", .jint 4),
                   ("out_of", .jint 5), ("feedback", .jstr "Plan next time")],
            .jobj [("id", .jstr "execution"), ("score", .jint 9),
                   ("out_of", .jint 10), ("feedback", .jstr "Built well")],
            .jobj [("id", .jstr "reflection"), ("score", .jint 4),
                   ("out_of", .jint 5), ("feedback", .jstr "Reflect more")]]),
         ("next_steps", .jarr [.jstr "Add labels", .jstr "Test joints",
                               .jstr "Write evaluation"]),
         ("total_score", .jint 17)]

/-- The spec's end-to-end response: `total_score = 16`, criteria
4/5, 8/10, 4/5, two next steps. -/
def dataC6e : JValue :=
  .jobj [("overall_comment", .jstr "Good start"),
         ("criteria", .jarr
           [.jobj [("id", .jstr "planning"), ("score", .jint 4),
                   ("out_of", .jint 5), ("feedback", .jstr "...")],
            .jobj [("id", .jstr "execution"), ("score", .jint 8),
                   ("out_of", .jint 10), ("feedback", .jstr "...")],
            .jobj [("id", .jstr "reflection"), ("score", .jint 4),
                   ("out_of", .jint 5), ("feedback", .jstr "...")]]),
         ("next_steps", .jarr [.jstr "A", .jstr "B"]),
         ("total_score", .jint 16)]

/-- Substring occurrence on character lists (helper for stating where
the "(empty)" placeholder does or does not appear). -/
def occursInL (needle : List Char) : List Char → Bool
  | [] => needle.isEmpty
  | c :: rest => isPfxList needle (c :: rest) || occursInL needle rest

/-- Substring occurrence on strings. -/
def occursIn (needle hay : String) : Bool :=
  occursInL needle.data hay.data

theorem renderCriteria_ok (rubric : Rubric) (cs : List JValue)
    (h : ∀ c ∈ cs, hasCritKeys c = true) :
    ∀ acc, ∃ acc2, renderCriteria rubric cs acc = .ok acc2 := by
  induction cs with
  | nil => intro acc; exact ⟨acc, rfl⟩
  | cons c rest ih =>
    intro acc
    have hc := h c (by simp)
    simp only [hasCritKeys, Bool.and_eq_true, Option.isSome_iff_exists] at hc
    obtain ⟨⟨⟨⟨cid, hcid⟩, sc, hsc⟩, oo, hoo⟩, fb, hfb⟩ := hc
    have hrest : ∀ x ∈ rest, hasCritKeys x = true := fun x hx => h x (by simp [hx])
    obtain ⟨acc2, hacc2⟩ := ih hrest
      (acc ++ ["**" ++ findName rubric cid ++ "** — " ++ pyStr sc ++ "/" ++ pyStr oo,
               pyStr fb])
    refine ⟨acc2, ?_⟩
    simp only [renderCriteria, hcid, hsc, hoo, hfb]
    exact hacc2

theorem pyLookup_perm {α : Type} {w1 w2 : List (String × α)} (h : w1.Perm w2) :
    (w1.map Prod.fst).Nodup → ∀ k, pyLookup w1 k = pyLookup w2 k := by
  induction h with
  | nil => intro _ _; rfl
  | cons a h ih =>
    intro hn k
    simp only [List.map_cons, List.nodup_cons] at hn
    by_cases hk : (a.1 == k) = true
    · simp [pyLookup, List.find?_cons, hk]
    · simp only [Bool.not_eq_true] at hk
      simpa [pyLookup, List.find?_cons, hk] using ih hn.2 k
  | swap x y l =>
    intro hn k
    simp only [List.map_cons, List.nodup_cons, List.mem_cons] at hn
    by_cases hyk : (y.1 == k) = true <;> by_cases hxk : (x.1 == k) = true
    · exfalso
      have hy : y.1 = k := by simpa using hyk
      have hx : x.1 = k := by simpa using hxk
      exact hn.1 (Or.inl (hy.trans hx.symm))
    · simp only [Bool.not_eq_true] at hxk
      simp [pyLookup, List.find?_cons, hyk, hxk]
    · simp only [Bool.not_eq_true] at hyk
      simp [pyLookup, List.find?_cons, hyk, hxk]
    · simp only [Bool.not_eq_true] at hyk hxk
      simp [pyLookup, List.find?_cons, hyk, hxk]
  | trans h1 h2 ih1 ih2 =>
    intro hn k
    have hn2 := ((h1.map Prod.fst).nodup_iff).mp hn
    exact (ih1 hn k).trans (ih2 hn2 k)

theorem bulletLines_congr (criteria : List Criterion) {w1 w2 : List (String × Int)}
    (h : ∀ k, pyLookup w1 k = pyLookup w2 k) :
    bulletLines criteria w1 = bulletLines criteria w2 := by
  induction criteria with
  | nil => rfl
  | cons c cs ih => simp only [bulletLines]; rw [h c.id, ih]

theorem bulletLines_rubric_order (criteria : List Criterion)
    (w : List (String × Int)) :
    ∀ ls, bulletLines criteria w = some ls →
      ls = criteria.map (fun c =>
        "- " ++ c.name ++ " (" ++ toString ((pyLookup w c.id).getD 0) ++ "): " ++ c.desc) := by
  induction criteria with
  | nil => intro ls h; simp only [bulletLines, Option.some_inj] at h; simp [← h]
  | cons c cs ih =>
    intro ls h
    simp only [bulletLines] at h
    cases hw : pyLookup w c.id with
    | none => rw [hw] at h; exact absurd h (by simp)
    | some wt =>
      rw [hw] at h
      cases hb : bulletLines cs w with
      | none => rw [hb] at h; exact absurd h (by simp)
      | some tl =>
        rw [hb] at h
        simp only [Option.some_inj] at h
        subst h
        simp [List.map_cons, hw, ih tl hb]

theorem numberInput_bounds {minV maxV value w : Int} {entry : Option Int}
    (h : numberInput minV maxV value entry = some w) :
    minV ≤ w ∧ w ≤ maxV := by
  unfold numberInput at h
  by_cases h1 : value < minV ∨ maxV < value
  · rw [if_pos h1] at h; exact absurd h (by simp)
  · rw [if_neg h1] at h
    push_neg at h1
    cases entry with
    | none =>
      simp only [Option.some_inj] at h
      omega
    | some v =>
      by_cases h2 : v < minV ∨ maxV < v
      · simp only [if_pos h2] at h
        exact absurd h (by simp)
      · simp only [if_neg h2, Option.some_inj] at h
        push_neg at h2
        omega

/-- C7: prompt compilation is deterministic — `build_prompt` is a pure
function, and its output depends only on the weight map's contents, not
on the insertion order of weight overrides: permuting the weight assoc
list (with distinct keys) leaves the compiled messages byte-identical.
Moreover the criterion bullet lines are produced in the rubric's
criterion order, one line per rubric criterion. -/
theorem c7_prompt_determinism :
    (∀ (cfg : Config) (yg tn tk sub : String) (w1 w2 : List (String × Int)),
       w1.Perm w2 → (w1.map Prod.fst).Nodup →
       build_prompt cfg yg tn tk sub w1 = build_prompt cfg yg tn tk sub w2) ∧
    (∀ (criteria : List Criterion) (w : List (String × Int)) (ls : List String),
       bulletLines criteria w = some ls →
       ls = criteria.map (fun c =>
         "- " ++ c.name ++ " (" ++ toString ((pyLookup w c.id).getD 0) ++ "): " ++
           c.desc)) := by
  constructor
  · intro cfg yg tn tk sub w1 w2 hperm hnodup
    unfold build_prompt
    cases hpr : pyLookup cfg.rubrics tk with
    | none => rfl
    | some rub =>
      have hb : criteriaBullets rub.criteria w1 = criteriaBullets rub.criteria w2 := by
        unfold criteriaBullets
        rw [bulletLines_congr rub.criteria (pyLookup_perm hperm hnodup)]
      have hs : (w1.map Prod.snd).sum = (w2.map Prod.snd).sum :=
        (hperm.map Prod.snd).sum_eq
      simp only [hb, hs]
  · exact fun criteria w ls h => bulletLines_rubric_order criteria w ls h

/-- Witness for C7 at concrete inputs: the weights dict written in
rubric order versus the same bindings with the first two swapped. -/
theorem c7_witness :
    build_prompt demoCfg "Year 7" "Supportive & specific" "design_portfolio" "My work"
      [("planning", 5), ("execution", 10), ("reflection", 5)] =
    build_prompt demoCfg "Year 7" "Supportive & specific" "design_portfolio" "My work"
      [("execution", 10), ("planning", 5), ("reflection", 5)] :=
  c7_prompt_determinism.1 demoCfg "Year 7" "Supportive & specific" "design_portfolio"
    "My work" _ _
    (List.Perm.swap ("execution", 10) ("planning", 5) [("reflection", 5)])
    (by decide)

/-- C9: the sidebar weight loop returns a total equal to the sum of the
resolved per-criterion weights, each resolved weight lies in [0, 20];
with no overrides it resolves every criterion to its default weight and
the total to the sum of defaults; and overrides equal to the defaults
resolve exactly as no overrides do. -/
theorem c9_weight_resolution :
    (∀ (criteria : List Criterion) (entry : String → Option Int)
       (ws : List (String × Int)) (total : Int),
       sidebarWeights criteria entry = some (ws, total) →
       total = (ws.map Prod.snd).sum ∧ ∀ p ∈ ws, 0 ≤ p.2 ∧ p.2 ≤ 20) ∧
    (∀ criteria : List Criterion,
       (∀ c ∈ criteria, 0 ≤ c.weight ∧ c.weight ≤ 20) →
       sidebarWeights criteria (fun _ => none) =
         some (criteria.map (fun c => (c.id, c.weight)),
               (criteria.map (fun c => c.weight)).sum)) ∧
    (∀ (criteria : List Criterion) (entry : String → Option Int),
       (∀ c ∈ criteria, entry c.id = some c.weight) →
       sidebarWeights criteria entry = sidebarWeights criteria (fun _ => none)) := by
  refine ⟨?_, ?_, ?_⟩
  · intro criteria entry
    induction criteria with
    | nil =>
      intro ws total h
      simp only [sidebarWeights, Option.some_inj, Prod.mk.injEq] at h
      simp [← h.1, ← h.2]
    | cons c cs ih =>
      intro ws total h
      simp only [sidebarWeights] at h
      cases hni : numberInput 0 20 c.weight (entry c.id) with
      | none => rw [hni] at h; exact absurd h (by simp)
      | some w =>
        rw [hni] at h
        cases hrest : sidebarWeights cs entry with
        | none => rw [hrest] at h; exact absurd h (by simp)
        | some p =>
          rw [hrest] at h
          obtain ⟨ws', t⟩ := p
          simp only [Option.some_inj, Prod.mk.injEq] at h
          obtain ⟨hws, ht⟩ := h
          obtain ⟨hsum, hbd⟩ := ih ws' t hrest
          subst hws ht
          constructor
          · simp [hsum]
          · intro p hp
            rcases List.mem_cons.mp hp with hp | hp
            · subst hp
              exact numberInput_bounds hni
            · exact hbd p hp
  · intro criteria h
    induction criteria with
    | nil => rfl
    | cons c cs ih =>
      have hc := h c (by simp)
      have hrest : ∀ c' ∈ cs, 0 ≤ c'.weight ∧ c'.weight ≤ 20 :=
        fun c' hx => h c' (by simp [hx])
      have hni : numberInput 0 20 c.weight none = some c.weight := by
        unfold numberInput
        rw [if_neg (by omega)]
      simp [sidebarWeights, hni, ih hrest]
  · intro criteria entry h
    induction criteria with
    | nil => rfl
    | cons c cs ih =>
      have hc := h c (by simp)
      have hrest : ∀ c' ∈ cs, entry c'.id = some c'.weight :=
        fun c' hx => h c' (by simp [hx])
      have hni : numberInput 0 20 c.weight (entry c.id) =
          numberInput 0 20 c.weight none := by
        rw [hc]
        unfold numberInput
        by_cases h1 : c.weight < 0 ∨ 20 < c.weight
        · rw [if_pos h1, if_pos h1]
        · rw [if_neg h1, if_neg h1]
          simp only [if_neg h1]
      simp only [sidebarWeights, hni, ih hrest]

/-- Witness for C9 at the demo rubric: total 20 = 5 + 10 + 5, all
weights within [0, 20], no-override resolution yields the defaults, and
overriding with the defaults changes nothing. -/
theorem c9_witness :
    ((20 : Int) = (demoWeights.map Prod.snd).sum ∧
      ∀ p ∈ demoWeights, 0 ≤ p.2 ∧ p.2 ≤ 20) ∧
    sidebarWeights demoRubric.criteria (fun _ => none) =
      some (demoRubric.criteria.map (fun c => (c.id, c.weight)),
            (demoRubric.criteria.map (fun c => c.weight)).sum) ∧
    sidebarWeights demoRubric.criteria (fun k => pyLookup demoWeights k) =
      sidebarWeights demoRubric.criteria (fun _ => none) :=
  ⟨c9_weight_resolution.1 demoRubric.criteria (fun _ => none) demoWeights 20 (by rfl),
   c9_weight_resolution.2.1 demoRubric.criteria (by decide),
   c9_weight_resolution.2.2 demoRubric.criteria (fun k => pyLookup demoWeights k)
     (by decide)⟩

/-- C10: the audit-log record carries the timestamp, task key, year
group, resolved weights, the submission's length (never its text) and
the validated result verbatim; two submissions of equal length (all
else fixed) produce identical records; and any record the handler logs
has `submission_len` equal to the submission's length. -/
theorem c10_audit_log :
    (∀ (ts tk yg : String) (w : List (String × Int)) (s : String) (d : JValue),
       (makeLog ts tk yg w s d).timestamp = ts ∧
       (makeLog ts tk yg w s d).task = tk ∧
       (makeLog ts tk yg w s d).year_group = yg ∧
       (makeLog ts tk yg w s d).weights = w ∧
       (makeLog ts tk yg w s d).submission_len = s.length ∧
       (makeLog ts tk yg w s d).result = d) ∧
    (∀ (ts tk yg : String) (w : List (String × Int)) (s1 s2 : String) (d : JValue),
       s1.length = s2.length →
       makeLog ts tk yg w s1 d = makeLog ts tk yg w s2 d) ∧
    (∀ (rubric : Rubric) (tk yg ts : String) (w : List (String × Int))
       (sub : String) (parsed : Option JValue) (r : LogRecord),
       (handler rubric tk yg ts w sub parsed).logged = some r →
       r.submission_len = sub.length) := by
  refine ⟨?_, ?_, ?_⟩
  · intro ts tk yg w s d
    exact ⟨rfl, rfl, rfl, rfl, rfl, rfl⟩
  · intro ts tk yg w s1 s2 d h
    simp [makeLog, h]
  · intro rubric tk yg ts w sub parsed r h
    cases parsed with
    | none => exact absurd h (by simp [handler])
    | some data =>
      simp only [handler, handlerWithData] at h
      split at h
      · split at h
        · exact absurd h (by simp)
        · simp only [Option.some_inj] at h
          rw [← h]
          rfl
      · exact absurd h (by simp)

/-- Witness for C10: two different submissions of equal length yield
the same record, and a concrete successful run logs the submission's
length. -/
theorem c10_witness :
    makeLog "t0" "design_portfolio" "Year 7" demoWeights "abcd" (.jstr "r") =
      makeLog "t0" "design_portfolio" "Year 7" demoWeights "wxyz" (.jstr "r") ∧
    (3 : Nat) = ("abc" : String).length :=
  ⟨c10_audit_log.2.1 "t0" "design_portfolio" "Year 7" demoWeights "abcd" "wxyz"
      (.jstr "r") (by rfl),
   by
    have := c10_audit_log.2.2 demoRubric "design_portfolio" "Year 7" "t0" demoWeights
      "abc" (some (.jobj [("overall_comment", .jstr "ok"), ("criteria", .jarr []),
        ("next_steps", .jarr []), ("total_score", .jint 12)]))
      (makeLog "t0" "design_portfolio" "Year 7" demoWeights "abc"
        (.jobj [("overall_comment", .jstr "ok"), ("criteria", .jarr []),
          ("next_steps", .jarr []), ("total_score", .jint 12)])) (by rfl)
    simpa using this.symm⟩

/-- C1 is false of the code: there is no per-criterion score/out_of
check — a criterion scored 6/5 passes every assert; the full report is
rendered (including the "6/5" line) and logged, and no failure of any
kind occurs. -/
theorem c1_counterexample :
    (handlerWithData demoRubric "design_portfolio" "Year 7" "t1" demoWeights "sub"
      dataC1).errMsg = none ∧
    (handlerWithData demoRubric "design_portfolio" "Year 7" "t1" demoWeights "sub"
      dataC1).rendered =
      ["Total Score: 6/20", "### Overall Comment", "Solid", "### Criteria Feedback",
       "**Planning** — 6/5", "Over the top", "### Next Steps", "1. Step"] ∧
    (handlerWithData demoRubric "design_portfolio" "Year 7" "t1" demoWeights "sub"
      dataC1).logged =
      some (makeLog "t1" "design_portfolio" "Year 7" demoWeights "sub" dataC1) :=
  ⟨rfl, rfl, rfl⟩

/-- C1 amended: validation performs no per-criterion score/out_of
checks at all — any response that passes the four top-level asserts and
whose criteria elements each carry the keys id/score/out_of/feedback is
accepted in full (rendered and logged), whatever the score and out_of
values are. -/
theorem c1_amended (rubric : Rubric) (tk yg ts : String) (w : List (String × Int))
    (sub : String) (data : JValue)
    (h1 : topAsserts data = true)
    (h2 : ∀ c ∈ criteriaOf data, hasCritKeys c = true) :
    (handlerWithData rubric tk yg ts w sub data).errMsg = none ∧
    (handlerWithData rubric tk yg ts w sub data).logged =
      some (makeLog ts tk yg w sub data) := by
  obtain ⟨acc2, hacc⟩ := renderCriteria_ok rubric (criteriaOf data) h2
    ["Total Score: " ++ toString (pyInt ((jGet data "total_score").getD .jnull)) ++ "/20",
     "### Overall Comment", pyStr ((jGet data "overall_comment").getD .jnull),
     "### Criteria Feedback"]
  simp [handlerWithData, h1, hacc]

/-- Witness for `c1_amended` at a concrete accepted input. -/
theorem c1_witness :
    (handlerWithData demoRubric "design_portfolio" "Year 8" "t1w" demoWeights "s2"
      dataC1).errMsg = none ∧
    (handlerWithData demoRubric "design_portfolio" "Year 8" "t1w" demoWeights "s2"
      dataC1).logged =
      some (makeLog "t1w" "design_portfolio" "Year 8" demoWeights "s2" dataC1) :=
  c1_amended demoRubric "design_portfolio" "Year 8" "t1w" demoWeights "s2" dataC1
    (by decide) (by decide)

/-- C2 is false of the code: a criterion id not in the active rubric is
accepted, its id is silently used as the display name (the `next(...)`
fallback), the report is rendered in full and logged; no
SchemaViolationError-like failure exists. -/
theorem c2_counterexample :
    (handlerWithData demoRubric "design_portfolio" "Year 7" "t2" demoWeights "w"
      dataC2).errMsg = none ∧
    (handlerWithData demoRubric "design_portfolio" "Year 7" "t2" demoWeights "w"
      dataC2).rendered =
      ["Total Score: 10/20", "### Overall Comment", "Hmm", "### Criteria Feedback",
       "**unlisted** — 3/5", "Mystery", "### Next Steps", "1. S1"] ∧
    (handlerWithData demoRubric "design_portfolio" "Year 7" "t2" demoWeights "w"
      dataC2).logged =
      some (makeLog "t2" "design_portfolio" "Year 7" demoWeights "w" dataC2) :=
  ⟨rfl, rfl, rfl⟩

/-- C2 amended: a criteria element whose id matches no rubric criterion
does not fail; the rendering loop accepts it and uses the response's id
value itself as the display name. -/
theorem c2_amended (rubric : Rubric) (cid sc oo fb : JValue) (rest : List JValue)
    (acc : List String)
    (h : ∀ r ∈ rubric.criteria, pyEqStr cid r.id = false) :
    renderCriteria rubric
      (.jobj [("id", cid), ("score", sc), ("out_of", oo), ("feedback", fb)] :: rest)
      acc =
    renderCriteria rubric rest
      (acc ++ ["**" ++ pyStr cid ++ "** — " ++ pyStr sc ++ "/" ++ pyStr oo,
               pyStr fb]) := by
  have hf : rubric.criteria.find? (fun r => pyEqStr cid r.id) = none :=
    List.find?_eq_none.mpr (by intro r hr; simp [h r hr])
  have hname : findName rubric cid = pyStr cid := by
    simp [findName, hf]
  have hstep : renderCriteria rubric
      (.jobj [("id", cid), ("score", sc), ("out_of", oo), ("feedback", fb)] :: rest)
      acc =
    renderCriteria rubric rest
      (acc ++ ["**" ++ findName rubric cid ++ "** — " ++ pyStr sc ++ "/" ++ pyStr oo,
               pyStr fb]) := rfl
  rw [hstep, hname]

/-- Witness for `c2_amended` at a concrete unknown criterion id. -/
theorem c2_witness :
    renderCriteria demoRubric
      (.jobj [("id", .jstr "ghost"), ("score", .jint 2), ("out_of", .jint 5),
              ("feedback", .jstr "who?")] :: []) [] =
    renderCriteria demoRubric []
      (["**" ++ pyStr (.jstr "ghost") ++ "** — " ++ pyStr (.jint 2) ++ "/" ++
          pyStr (.jint 5), pyStr (.jstr "who?")]) :=
  c2_amended demoRubric (.jstr "ghost") (.jint 2) (.jint 5) (.jstr "who?") [] []
    (by decide)

/-- C3 is false of the code: `total_score = 25` (outside [0, 20]) passes
validation — the report is rendered with "Total Score: 25/20" and
logged; no ScoreRangeError-like failure exists. -/
theorem c3_counterexample :
    (handlerWithData demoRubric "design_portfolio" "Year 7" "t3" demoWeights "x"
      (dataWithTotal 25)).errMsg = none ∧
    (handlerWithData demoRubric "design_portfolio" "Year 7" "t3" demoWeights "x"
      (dataWithTotal 25)).rendered =
      ["Total Score: 25/20", "### Overall Comment", "ok", "### Criteria Feedback",
       "### Next Steps"] ∧
    (handlerWithData demoRubric "design_portfolio" "Year 7" "t3" demoWeights "x"
      (dataWithTotal 25)).logged =
      some (makeLog "t3" "design_portfolio" "Year 7" demoWeights "x"
        (dataWithTotal 25)) :=
  ⟨rfl, rfl, rfl⟩

/-- C3 amended: the handler checks only that `total_score` is present
and numeric (`isinstance(…, (int, float))`); every integer value — of
any sign or magnitude — is accepted and displayed truncated as
`Total Score: n/20`, with no range check. -/
theorem c3_amended (n : Int) (rubric : Rubric) (tk yg ts : String)
    (w : List (String × Int)) (sub : String) :
    (handlerWithData rubric tk yg ts w sub (dataWithTotal n)).errMsg = none ∧
    (handlerWithData rubric tk yg ts w sub (dataWithTotal n)).rendered.head? =
      some ("Total Score: " ++ toString n ++ "/20") ∧
    (handlerWithData rubric tk yg ts w sub (dataWithTotal n)).logged =
      some (makeLog ts tk yg w sub (dataWithTotal n)) :=
  ⟨rfl, rfl, rfl⟩

/-- C4 is false of the code: an unparseable model output does fail, but
with the single generic catch-all message (a `json.JSONDecodeError`
reaching the bare `except Exception`), and an entirely different
failure — a response that is not a JSON object at all — produces the
same uncategorized message family; no typed error kinds exist. -/
theorem c4_counterexample :
    handler demoRubric "design_portfolio" "Year 7" "t4" demoWeights "s" none =
      ⟨[], some ("Something went wrong parsing the model output. " ++
          "Expecting value: line 1 column 1 (char 0)"), none⟩ ∧
    (handlerWithData demoRubric "design_portfolio" "Year 7" "t4" demoWeights "s"
      (.jstr "This essay shows promise and care.")).errMsg =
      some "Something went wrong parsing the model output. assert failed" :=
  ⟨rfl, rfl⟩

/-- C4 amended: every failure the handler can surface — parse failure,
assert failure, or a mid-rendering exception — is reported through the
one generic catch-all message
`"Something went wrong parsing the model output. …"`; failures are
total but uncategorized, with no per-kind typed errors. -/
theorem c4_amended (rubric : Rubric) (tk yg ts : String) (w : List (String × Int))
    (sub : String) (parsed : Option JValue) (m : String)
    (h : (handler rubric tk yg ts w sub parsed).errMsg = some m) :
    ∃ t, m = "Something went wrong parsing the model output. " ++ t := by
  cases parsed with
  | none =>
    simp only [handler, genericError, Option.some_inj] at h
    exact ⟨_, h.symm⟩
  | some data =>
    simp only [handler, handlerWithData] at h
    split at h
    · split at h
      · simp only [genericError, Option.some_inj] at h
        exact ⟨_, h.symm⟩
      · simp at h
    · simp only [genericError, Option.some_inj] at h
      exact ⟨_, h.symm⟩

/-- Witness for `c4_amended` at the unparseable-output case. -/
theorem c4_witness :
    ∃ t, "Something went wrong parsing the model output. " ++
        "Expecting value: line 1 column 1 (char 0)" =
      "Something went wrong parsing the model output. " ++ t :=
  c4_amended demoRubric "design_portfolio" "Year 7" "t4w" demoWeights "s" none
    ("Something went wrong parsing the model output. " ++
      "Expecting value: line 1 column 1 (char 0)") rfl

/-- C5 is false of the code: rendering is interleaved with the checks,
so a failure inside the criteria loop leaves a partial report visible —
here the total-score banner, the overall comment and the criteria
header are all shown to the user even though the run fails. -/
theorem c5_counterexample :
    (handlerWithData demoRubric "design_portfolio" "Year 7" "t5" demoWeights "s"
      dataC5).rendered =
      ["Total Score: 12/20", "### Overall Comment", "Nice effort",
       "### Criteria Feedback"] ∧
    (handlerWithData demoRubric "design_portfolio" "Year 7" "t5" demoWeights "s"
      dataC5).errMsg =
      some "Something went wrong parsing the model output. \x27id\x27" ∧
    (handlerWithData demoRubric "design_portfolio" "Year 7" "t5" demoWeights "s"
      dataC5).logged = none :=
  ⟨rfl, rfl, rfl⟩

/-- C5 amended: only failures at the parse or top-level-assert stage
produce no output at all; the audit log is atomic (written exactly when
no failure occurs); but a mid-rendering failure leaves the
already-rendered partial report visible (see the counterexample). -/
theorem c5_amended :
    (∀ (rubric : Rubric) (tk yg ts : String) (w : List (String × Int))
       (sub : String) (data : JValue), topAsserts data = false →
       handlerWithData rubric tk yg ts w sub data =
         ⟨[], some (genericError "assert failed"), none⟩) ∧
    (∀ (rubric : Rubric) (tk yg ts : String) (w : List (String × Int))
       (sub : String) (parsed : Option JValue),
       (handler rubric tk yg ts w sub parsed).logged.isSome = true ↔
         (handler rubric tk yg ts w sub parsed).errMsg = none) := by
  constructor
  · intro rubric tk yg ts w sub data h
    simp [handlerWithData, h]
  · intro rubric tk yg ts w sub parsed
    cases parsed with
    | none => simp [handler]
    | some data =>
      simp only [handler, handlerWithData]
      split
      · split <;> simp
      · simp

/-- Witness for `c5_amended`: a run on a non-object response shows
nothing, and the logged-iff-no-error equivalence at a failing run. -/
theorem c5_witness :
    handlerWithData demoRubric "design_portfolio" "Year 7" "t5w" demoWeights "s"
      (.jint 3) = ⟨[], some (genericError "assert failed"), none⟩ ∧
    ((handler demoRubric "design_portfolio" "Year 7" "t5w" demoWeights "s"
        none).logged.isSome = true ↔
      (handler demoRubric "design_portfolio" "Year 7" "t5w" demoWeights "s"
        none).errMsg = none) :=
  ⟨c5_amended.1 demoRubric "design_portfolio" "Year 7" "t5w" demoWeights "s"
    (.jint 3) rfl,
   c5_amended.2 demoRubric "design_portfolio" "Year 7" "t5w" demoWeights "s" none⟩

/-- C6 confirmed: the synthetic well-formed response with
`total_score = 17` validates, every field value is rendered unchanged
(overall comment, per-criterion score/out_of/feedback in rubric terms,
next steps, truncated total), and the logged record carries the parsed
response verbatim; likewise the end-to-end `total_score = 16`
response. -/
theorem c6_roundtrip :
    handlerWithData demoRubric "design_portfolio" "Year 7" "t6" demoWeights
      "My project" dataC6 =
      ⟨["Total Score: 17/20", "### Overall Comment", "Good start",
        "### Criteria Feedback",
        "**Planning** — 4/5", "Plan next time",
        "**Execution** — 9/10", "Built well",
        "**Reflection** — 4/5", "Reflect more",
        "### Next Steps", "1. Add labels", "2. Test joints", "3. Write evaluation"],
       none,
       some (makeLog "t6" "design_portfolio" "Year 7" demoWeights "My project"
         dataC6)⟩ ∧
    ((handlerWithData demoRubric "design_portfolio" "Year 7" "t6" demoWeights
        "My project" dataC6).logged.map LogRecord.result) = some dataC6 ∧
    (handlerWithData demoRubric "design_portfolio" "Year 7" "t6e" demoWeights
      "My project" dataC6e).errMsg = none ∧
    (handlerWithData demoRubric "design_portfolio" "Year 7" "t6e" demoWeights
      "My project" dataC6e).rendered.head? = some "Total Score: 16/20" ∧
    ((handlerWithData demoRubric "design_portfolio" "Year 7" "t6e" demoWeights
        "My project" dataC6e).logged.map LogRecord.result) = some dataC6e :=
  ⟨rfl, rfl, rfl, rfl, rfl⟩

set_option maxRecDepth 100000 in
/-- C8 is false of the code: the placeholder test is Python truthiness
of the raw submission (`if submission`), not emptiness after trimming —
a whitespace-only submission is truthy, so its *stripped* (empty) text
is inserted and the compiled messages contain no "(empty)" token at
all. -/
theorem c8_counterexample :
    pyStrip "   " = "" ∧
    submissionSlot "   " = "" ∧
    (build_prompt demoCfg "Year 7" "Supportive & specific" "design_portfolio" "   "
        demoWeights).map
      (fun msgs => occursIn "(empty)" (msgs.foldl (fun a m => a ++ m.2) "")) =
      some false :=
  ⟨rfl, rfl, rfl⟩

set_option maxRecDepth 100000 in
/-- C8 amended: only a submission that is exactly the empty string is
replaced by the "(empty)" placeholder (and then the compiled payload
does contain it); any nonempty submission — including whitespace-only
text — is inserted as its stripped value, which for whitespace-only
text is the empty string. -/
theorem c8_amended :
    submissionSlot "" = "(empty)" ∧
    (∀ s : String, s ≠ "" → submissionSlot s = pyStrip s) ∧
    (build_prompt demoCfg "Year 7" "Supportive & specific" "design_portfolio" ""
        demoWeights).map
      (fun msgs => occursIn "(empty)" (msgs.foldl (fun a m => a ++ m.2) "")) =
      some true := by
  refine ⟨rfl, ?_, rfl⟩
  intro s h
  simp [submissionSlot, h]

/-- Witness for `c8_amended` at a concrete nonempty submission. -/
theorem c8_witness : submissionSlot "hello" = pyStrip "hello" :=
  c8_amended.2.1 "hello" (by decide)
